import Mathlib

/-!
Verification of the media-processing pipeline of the speech-to-text web
application.  The embedding below translates the core pipeline code into
Lean:

* `app/audio/diarization.py` — the segment merger
  (`merge_transcription_with_diarization`), the diarization result
  processing (speaker roster construction), and the `SpeakerDiarizer`
  availability wrapper;
* `app/audio/tasks.py` — the Whisper model loader (`_load_whisper_model`)
  and the two task-queue jobs (`extract_audio_task`,
  `process_audio_task`), modelled as executable functions over an
  environment record that abstracts the outside world (database row
  present or not, file on disk, outcome of the external inference calls);
* `app/audio/models.py` / `app/audio/views.py` — the persisted
  transcription record and the status/result updates the pipeline and the
  detail view perform, modelled as a step relation.

Numeric timestamps and durations are modelled as exact rationals (the
Python code manipulates floats only through comparisons, `min`, `max`,
subtraction and addition, and every claim under study is about the
algorithmic structure, not float rounding).  Python dictionaries holding
transcript segments are modelled as records with the keys the code reads
(`start`, `end`, `speaker`) plus an opaque `data` field standing for all
remaining keys; the code's `seg.get('start', 0)` defaults never fire for
segments produced by the pipeline (tasks.py builds every segment with
`start`/`end` present), so the fields are total here.
-/

namespace SpeechToText

/-! ## Data model for the segment merger (`app/audio/diarization.py`) -/

/-- A diarization segment dictionary: the merge reads the keys `start`,
`end` and `speaker` (diarization.py lines 188-200). -/
structure DiarSeg where
  start : ℚ
  stop : ℚ
  speaker : String
  deriving DecidableEq, Repr

/-- A transcript segment dictionary: `start`/`end` are read by the merge,
`speaker` is the key the merge may add (`none` models the key being
absent), and `data` stands for every other key (`text`, `words`, ...),
which the merge copies verbatim. -/
@[ext]
structure TransSeg (α : Type) where
  start : ℚ
  stop : ℚ
  speaker : Option String
  data : α
  deriving DecidableEq, Repr

/-! ### The merge, translated from
`merge_transcription_with_diarization` (diarization.py lines 160-218) -/

/-- Python dict accumulation `overlapping_speakers[speaker] += overlap`
(insertion-ordered: an existing key is updated in place, a new key is
appended), diarization.py lines 199-204. -/
def addOverlap : List (String × ℚ) → String → ℚ → List (String × ℚ)
  | [], sp, od => [(sp, od)]
  | (k, v) :: rest, sp, od =>
    if k = sp then (k, v + od) :: rest else (k, v) :: addOverlap rest sp od

/-- One iteration of the `for diar_seg in diarization_segments` loop
(diarization.py lines 188-204): overlap test `diar_start < seg_end and
diar_end > seg_start`, overlap duration
`max(0, min(seg_end, diar_end) - max(seg_start, diar_start))`. -/
def overlapStep (s e : ℚ) (acc : List (String × ℚ)) (d : DiarSeg) :
    List (String × ℚ) :=
  if d.start < e ∧ s < d.stop then
    addOverlap acc d.speaker (max 0 (min e d.stop - max s d.start))
  else acc

/-- The `overlapping_speakers` dictionary built for one transcript
segment `[s, e)` (diarization.py lines 185-204). -/
def overlappingSpeakers (s e : ℚ) (ds : List DiarSeg) : List (String × ℚ) :=
  ds.foldl (overlapStep s e) []

/-- Python `max(items, key=lambda x: x[1])`: the first item whose value
is maximal (a later item replaces the current best only when strictly
greater), diarization.py line 209. -/
def maxBySnd : List (String × ℚ) → Option (String × ℚ)
  | [] => none
  | x :: xs => some (xs.foldl (fun best y => if best.2 < y.2 then y else best) x)

/-- Processing of one transcript segment (diarization.py lines 180-216):
compute the dominant speaker and, `if speaker:` (Python truthiness: both
`None` and the empty string fail the test), attach it to a copy of the
segment. -/
def mergeOne (ds : List DiarSeg) (seg : TransSeg α) : TransSeg α :=
  match maxBySnd (overlappingSpeakers seg.start seg.stop ds) with
  | none => seg
  | some (sp, _) => if sp = "" then seg else { seg with speaker := some sp }

/-- Translation of `merge_transcription_with_diarization`
(diarization.py lines 160-218): with an empty diarization list the
transcript list is returned unchanged (line 174-175), otherwise each
segment is processed in order and appended to a fresh result list. -/
def merge_transcription_with_diarization
    (ts : List (TransSeg α)) (ds : List DiarSeg) : List (TransSeg α) :=
  if ds.isEmpty then ts else ts.map (mergeOne ds)

/-! ### The merge algorithm as the specification states it

The spec (section 4.5) describes the merge independently of the code:
per-speaker accumulated overlap over the intersecting diarization
segments, maximum wins, ties broken by the speaker first encountered in
diarization order.  The following definitions follow those words; the
claim theorems compare them with the translation above. -/

/-- Interval intersection of a diarization segment with `[s, e)`, as in
the spec: the segment's interval meets the transcript segment's. -/
def intersectsB (s e : ℚ) (d : DiarSeg) : Bool :=
  decide (d.start < e) && decide (s < d.stop)

/-- The spec's overlap formula
`max(0, min(e, diar_e) - max(s, diar_s))`. -/
def overlapDur (s e : ℚ) (d : DiarSeg) : ℚ :=
  max 0 (min e d.stop - max s d.start)

/-- Accumulated overlap of one speaker over all intersecting diarization
segments, as the spec words it. -/
def accOverlap (s e : ℚ) (ds : List DiarSeg) (sp : String) : ℚ :=
  (((ds.filter (intersectsB s e)).filter (fun d => d.speaker = sp)).map
    (overlapDur s e)).sum

/-- First-occurrence deduplication: the distinct elements of a list in
the order each one is first encountered. -/
def dedupFirst : List String → List String
  | [] => []
  | x :: xs => x :: (dedupFirst xs).filter (fun y => y ≠ x)

/-- The distinct speakers intersecting `[s, e)`, in diarization order of
first encounter. -/
def speakersInOrder (s e : ℚ) (ds : List DiarSeg) : List String :=
  dedupFirst ((ds.filter (intersectsB s e)).map DiarSeg.speaker)

/-- First element attaining the maximal score: a later candidate wins
only with a strictly greater score. -/
def argmaxFirst (f : String → ℚ) : List String → Option String
  | [] => none
  | x :: xs => some (xs.foldl (fun b y => if f b < f y then y else b) x)

/-- The speaker the spec assigns to transcript segment `[s, e)`:
maximal accumulated overlap, ties to the speaker first encountered in
diarization order, no speaker when no diarization segment intersects. -/
def specWinner (s e : ℚ) (ds : List DiarSeg) : Option String :=
  argmaxFirst (accOverlap s e ds) (speakersInOrder s e ds)

/-! ### Bridge lemmas: the fold of the code equals the spec's per-speaker
accumulation -/

theorem mem_dedupFirst {a : String} {l : List String} :
    a ∈ dedupFirst l ↔ a ∈ l := by
  induction l with
  | nil => simp [dedupFirst]
  | cons x xs ih =>
    rw [dedupFirst]
    by_cases hax : a = x
    · simp [hax]
    · simp only [List.mem_cons, hax, false_or, List.mem_filter]
      simp [hax, ih]

theorem dedupFirst_nodup (l : List String) : (dedupFirst l).Nodup := by
  induction l with
  | nil => simp [dedupFirst]
  | cons x xs ih =>
    rw [dedupFirst]
    refine List.nodup_cons.2 ⟨?_, ih.filter _⟩
    intro hx
    have := List.mem_filter.1 hx
    simp at this

theorem dedupFirst_append_singleton (x : String) (l : List String) :
    dedupFirst (l ++ [x]) =
      if x ∈ l then dedupFirst l else dedupFirst l ++ [x] := by
  induction l with
  | nil => simp [dedupFirst]
  | cons a l' ih =>
    have key : dedupFirst (a :: l' ++ [x]) =
        a :: (if x ∈ l' then dedupFirst l'
          else dedupFirst l' ++ [x]).filter (fun y => y ≠ a) := by
      rw [List.cons_append, dedupFirst, ih]
    rw [key]
    by_cases hx : x ∈ l'
    · rw [if_pos hx, if_pos (List.mem_cons_of_mem a hx), dedupFirst]
    · rw [if_neg hx, List.filter_append]
      by_cases hxa : x = a
      · subst hxa
        rw [if_pos (List.mem_cons_self x l'), dedupFirst]
        simp
      · have hnm : x ∉ a :: l' := by simp [hxa, hx]
        rw [if_neg hnm, dedupFirst]
        simp [hxa]

theorem intersectsB_iff (s e : ℚ) (d : DiarSeg) :
    intersectsB s e d = true ↔ (d.start < e ∧ s < d.stop) := by
  simp [intersectsB]

theorem accOverlap_append (s e : ℚ) (ds : List DiarSeg) (d : DiarSeg)
    (sp : String) :
    accOverlap s e (ds ++ [d]) sp =
      accOverlap s e ds sp +
        (if intersectsB s e d ∧ d.speaker = sp then overlapDur s e d else 0) := by
  unfold accOverlap
  rw [List.filter_append]
  by_cases h1 : intersectsB s e d
  · by_cases h2 : d.speaker = sp
    · simp [h1, h2]
    · simp [h1, h2]
  · simp [h1]

theorem speakersInOrder_append (s e : ℚ) (ds : List DiarSeg) (d : DiarSeg) :
    speakersInOrder s e (ds ++ [d]) =
      if intersectsB s e d then
        (if d.speaker ∈ speakersInOrder s e ds then speakersInOrder s e ds
         else speakersInOrder s e ds ++ [d.speaker])
      else speakersInOrder s e ds := by
  unfold speakersInOrder
  rw [List.filter_append]
  by_cases h : intersectsB s e d
  · rw [show ([d] : List DiarSeg).filter (intersectsB s e) = [d] by simp [h]]
    simp only [List.map_append, List.map_cons, List.map_nil, h, if_true]
    rw [dedupFirst_append_singleton]
    by_cases hm2 : d.speaker ∈
        List.map DiarSeg.speaker (List.filter (intersectsB s e) ds)
    · rw [if_pos hm2, if_pos (mem_dedupFirst.2 hm2)]
    · rw [if_neg hm2, if_neg (fun hx => hm2 (mem_dedupFirst.1 hx))]
  · simp [h]

theorem accOverlap_of_not_mem (s e : ℚ) (ds : List DiarSeg) (sp : String)
    (h : sp ∉ speakersInOrder s e ds) : accOverlap s e ds sp = 0 := by
  unfold speakersInOrder at h
  rw [mem_dedupFirst] at h
  unfold accOverlap
  have : (ds.filter (intersectsB s e)).filter (fun d => d.speaker = sp) = [] := by
    rw [List.filter_eq_nil_iff]
    intro d hd
    simp only [decide_eq_true_eq]
    intro hsp
    exact h (List.mem_map.2 ⟨d, hd, hsp⟩)
  rw [this]
  simp

theorem addOverlap_map_mem (L : List String) (f : String → ℚ) (sp : String)
    (v : ℚ) (hnd : L.Nodup) (hm : sp ∈ L) :
    addOverlap (L.map (fun k => (k, f k))) sp v =
      L.map (fun k => (k, if k = sp then f k + v else f k)) := by
  induction L with
  | nil => cases hm
  | cons a L' ih =>
    rw [List.map_cons, List.map_cons, addOverlap]
    by_cases hasp : a = sp
    · subst hasp
      have hnot : a ∉ L' := (List.nodup_cons.1 hnd).1
      rw [if_pos rfl, if_pos rfl]
      congr 1
      refine (List.map_congr_left ?_).symm
      intro k hk
      have : k ≠ a := fun hka => hnot (hka ▸ hk)
      simp [this]
    · have hm' : sp ∈ L' := by
        rcases List.mem_cons.1 hm with h | h
        · exact absurd h.symm hasp
        · exact h
      rw [if_neg hasp, ih (List.nodup_cons.1 hnd).2 hm', if_neg hasp]

theorem addOverlap_map_not_mem (L : List String) (f : String → ℚ)
    (sp : String) (v : ℚ) (hm : sp ∉ L) :
    addOverlap (L.map (fun k => (k, f k))) sp v =
      L.map (fun k => (k, f k)) ++ [(sp, v)] := by
  induction L with
  | nil => rfl
  | cons a L' ih =>
    have hasp : a ≠ sp := fun h => hm (h ▸ List.mem_cons_self a L')
    rw [List.map_cons, addOverlap, if_neg hasp, List.cons_append]
    exact congrArg _ (ih (fun h => hm (List.mem_cons_of_mem a h)))

/-- The dictionary built by the loop of the merge equals, as an ordered
association list, the spec's per-speaker accumulated overlaps listed in
order of first encounter. -/
theorem overlappingSpeakers_eq (s e : ℚ) (ds : List DiarSeg) :
    overlappingSpeakers s e ds =
      (speakersInOrder s e ds).map (fun sp => (sp, accOverlap s e ds sp)) := by
  induction ds using List.reverseRecOn with
  | nil => simp [overlappingSpeakers, speakersInOrder, dedupFirst]
  | append_singleton ds d ih =>
    have hfold : overlappingSpeakers s e (ds ++ [d]) =
        overlapStep s e (overlappingSpeakers s e ds) d := by
      unfold overlappingSpeakers
      rw [List.foldl_append, List.foldl_cons, List.foldl_nil]
    rw [hfold, ih, overlapStep]
    by_cases hint : d.start < e ∧ s < d.stop
    · have hb : intersectsB s e d = true := (intersectsB_iff s e d).2 hint
      rw [if_pos hint]
      have hdur : max 0 (min e d.stop - max s d.start) = overlapDur s e d := rfl
      rw [hdur, speakersInOrder_append, if_pos hb]
      by_cases hmem : d.speaker ∈ speakersInOrder s e ds
      · rw [if_pos hmem]
        rw [addOverlap_map_mem (speakersInOrder s e ds) (accOverlap s e ds)
          d.speaker (overlapDur s e d) (dedupFirst_nodup _) hmem]
        refine List.map_congr_left ?_
        intro k hk
        rw [accOverlap_append]
        by_cases hk2 : k = d.speaker
        · simp [hk2, hb]
        · have : ¬(d.speaker = k) := fun h => hk2 h.symm
          simp [hk2, this]
      · rw [if_neg hmem]
        rw [addOverlap_map_not_mem (speakersInOrder s e ds) (accOverlap s e ds)
          d.speaker (overlapDur s e d) hmem, List.map_append]
        congr 1
        · refine List.map_congr_left ?_
          intro k hk
          rw [accOverlap_append]
          have : ¬(d.speaker = k) := fun h => hmem (h ▸ hk)
          simp [this]
        · simp only [List.map_cons, List.map_nil]
          rw [accOverlap_append]
          have h0 : accOverlap s e ds d.speaker = 0 :=
            accOverlap_of_not_mem s e ds d.speaker hmem
          simp [h0, hb]
    · have hb : intersectsB s e d = false := by
        rw [← Bool.not_eq_true, intersectsB_iff]; exact hint
      rw [if_neg hint, speakersInOrder_append, hb]
      simp only [Bool.false_eq_true, if_false]
      refine List.map_congr_left ?_
      intro k hk
      rw [accOverlap_append]
      simp [hb]

theorem foldl_max_pair (f : String → ℚ) (xs : List String) (x : String) :
    xs.foldl (fun (b : String × ℚ) y => if b.2 < (f y) then (y, f y) else b)
        (x, f x)
      = (xs.foldl (fun b y => if f b < f y then y else b) x,
         f (xs.foldl (fun b y => if f b < f y then y else b) x)) := by
  induction xs generalizing x with
  | nil => rfl
  | cons y ys ih =>
    simp only [List.foldl_cons]
    by_cases h : f x < f y
    · simp only [h, if_true, ih]
    · simp only [h, if_false, ih]

/-- Python's `max` over the ordered dictionary items equals the spec's
first-maximum choice over the speakers in first-encounter order. -/
theorem maxBySnd_map (f : String → ℚ) (L : List String) :
    maxBySnd (L.map (fun k => (k, f k))) =
      (argmaxFirst f L).map (fun sp => (sp, f sp)) := by
  cases L with
  | nil => rfl
  | cons x xs =>
    simp only [List.map_cons, maxBySnd, argmaxFirst, List.foldl_map]
    rw [foldl_max_pair]
    rfl

/-- Per-segment correspondence: the speaker field produced by the code
is the spec's winner, except that a winning empty-string id is dropped
(Python `if speaker:`), in which case the input field is kept. -/
theorem mergeOne_speaker (ds : List DiarSeg) (seg : TransSeg α) :
    (mergeOne ds seg).speaker =
      match specWinner seg.start seg.stop ds with
      | none => seg.speaker
      | some sp => if sp = "" then seg.speaker else some sp := by
  unfold mergeOne
  rw [overlappingSpeakers_eq, maxBySnd_map]
  unfold specWinner
  cases h : argmaxFirst (accOverlap seg.start seg.stop ds)
      (speakersInOrder seg.start seg.stop ds) with
  | none => simp
  | some sp =>
    simp only [Option.map_some]
    by_cases hsp : sp = "" <;> simp [hsp]

theorem mergeOne_frame (ds : List DiarSeg) (seg : TransSeg α) :
    (mergeOne ds seg).start = seg.start ∧ (mergeOne ds seg).stop = seg.stop ∧
      (mergeOne ds seg).data = seg.data := by
  unfold mergeOne
  cases maxBySnd (overlappingSpeakers seg.start seg.stop ds) with
  | none => exact ⟨rfl, rfl, rfl⟩
  | some p =>
    by_cases hsp : p.1 = "" <;> simp [hsp]

theorem specWinner_eq_none_iff (s e : ℚ) (ds : List DiarSeg) :
    specWinner s e ds = none ↔ ds.filter (intersectsB s e) = [] := by
  unfold specWinner
  constructor
  · intro h
    cases hL : speakersInOrder s e ds with
    | nil =>
      unfold speakersInOrder at hL
      cases hf : ds.filter (intersectsB s e) with
      | nil => rfl
      | cons d rest =>
        rw [hf] at hL
        simp [dedupFirst] at hL
    | cons a L' => rw [hL] at h; simp [argmaxFirst] at h
  · intro h
    unfold speakersInOrder
    rw [h]
    simp [dedupFirst, argmaxFirst]

theorem merge_length (ts : List (TransSeg α)) (ds : List DiarSeg) :
    (merge_transcription_with_diarization ts ds).length = ts.length := by
  unfold merge_transcription_with_diarization
  by_cases h : ds.isEmpty <;> simp [h]

theorem merge_getElem? (ts : List (TransSeg α)) (ds : List DiarSeg)
    (i : Nat) (h : ds ≠ []) :
    (merge_transcription_with_diarization ts ds)[i]? =
      (ts[i]?).map (mergeOne ds) := by
  unfold merge_transcription_with_diarization
  rw [if_neg (by simpa using h)]
  exact List.getElem?_map ..

/-! ## Speaker roster construction (`SpeakerDiarizer.process_audio_file`,
diarization.py lines 119-154) -/

/-- The fixed speaker color palette `DEFAULT_SPEAKER_COLORS`
(diarization.py lines 22-33). -/
def DEFAULT_SPEAKER_COLORS : List String :=
  ["#1f77b4", "#ff7f0e", "#2ca02c", "#d62728", "#9467bd",
   "#8c564b", "#e377c2", "#7f7f7f", "#bcbd22", "#17becf"]

/-- One roster entry of the `speakers` list built at diarization.py lines
143-148. -/
structure Speaker where
  id : String
  name : String
  color : String
  deriving DecidableEq, Repr

/-- One `(turn, _, speaker)` triple yielded by
`diarization.itertracks(yield_label=True)` (diarization.py line 125), in
yield order. -/
structure Turn where
  start : ℚ
  stop : ℚ
  speaker : String
  deriving DecidableEq, Repr

/-- The id list `sorted(list(speaker_ids))` (diarization.py line 140):
`speaker_ids` is the set of speaker ids of the yielded turns, so the
result is the distinct ids in ascending lexicographic order. -/
def rosterIds (turns : List Turn) : List String :=
  List.insertionSort (fun a b => a ≤ b) (dedupFirst (turns.map Turn.speaker))

/-- The `for i, speaker_id in enumerate(speaker_ids)` loop building the
roster (diarization.py lines 143-148): display name `Speaker i+1`, color
`DEFAULT_SPEAKER_COLORS[i % len(DEFAULT_SPEAKER_COLORS)]`. -/
def buildRoster : List String → Nat → List Speaker
  | [], _ => []
  | sid :: rest, i =>
    { id := sid, name := "Speaker " ++ toString (i + 1),
      color := DEFAULT_SPEAKER_COLORS.getD
        (i % DEFAULT_SPEAKER_COLORS.length) "" } :: buildRoster rest (i + 1)

/-- The speaker roster produced for one diarization run
(diarization.py lines 139-148). -/
def buildSpeakers (turns : List Turn) : List Speaker :=
  buildRoster (rosterIds turns) 0

/-- The roster the spec describes (section 3: entries assigned by
first-appearance order): same entry formatting, but the ids are listed in
order of each speaker's first appearance in the diarization output. -/
def rosterFirstAppearance (turns : List Turn) : List Speaker :=
  buildRoster (dedupFirst (turns.map Turn.speaker)) 0

/-! ## Exception classes and the diarization engine wrapper -/

/-- The Python exception classes the pipeline code distinguishes
(tasks.py line 576 checks the first four; `DoesNotExist` is the ORM
not-found error; `loadFailure` stands for the exception a failed
`whisper.load_model` raises; `otherError` is any other `Exception`). -/
inductive PyErr where
  | valueError
  | typeError
  | attributeError
  | importError
  | nameError
  | doesNotExist
  | loadFailure (tier : String)
  | otherError
  deriving DecidableEq, Repr

/-- Container mirroring the `DiarizationResult` dataclass
(diarization.py lines 35-40). -/
structure DiarizationResult where
  segments : List DiarSeg
  speakers : List Speaker
  audio_duration : ℚ
  deriving DecidableEq, Repr

/-- The diarizer object: `pipeline` is the loaded pyannote pipeline or
`None` (diarization.py line 47). -/
structure SpeakerDiarizer where
  pipeline : Option Unit
  deriving DecidableEq, Repr

/-- Translation of `SpeakerDiarizer._load_model` (diarization.py lines
51-68): when the pyannote import failed the pipeline stays unset; a
failing `Pipeline.from_pretrained` is caught and leaves it unset. -/
def load_model (diarizationAvailable : Bool) (load : Except PyErr Unit) :
    SpeakerDiarizer :=
  if diarizationAvailable = false then { pipeline := none }
  else
    match load with
    | .ok u => { pipeline := some u }
    | .error _ => { pipeline := none }

/-- Translation of `SpeakerDiarizer.is_available` (diarization.py lines
70-72); `diarizationAvailable` is the module flag `DIARIZATION_AVAILABLE`
set by the import guard (lines 13-18). -/
def SpeakerDiarizer.is_available (d : SpeakerDiarizer)
    (diarizationAvailable : Bool) : Bool :=
  d.pipeline.isSome && diarizationAvailable

/-- Translation of `SpeakerDiarizer.process_audio_file` (diarization.py
lines 74-158).  `run` abstracts the body of the `try` block up to the
pipeline call: the list of turns the pipeline yields, or the exception it
raises; `audioDuration` is the duration computed from the waveform
(line 123) and `round2` the float `round(x, 2)` applied to turn
boundaries (lines 130-131).  When the engine is unavailable the call
returns `None` (lines 91-93); any exception from the body is caught and
turned into `None` (lines 156-158); otherwise the result carries the
start-sorted segments and the roster. -/
def SpeakerDiarizer.process_audio_file (d : SpeakerDiarizer)
    (diarizationAvailable : Bool) (run : Except PyErr (List Turn))
    (audioDuration : ℚ) (round2 : ℚ → ℚ) : Option DiarizationResult :=
  if (d.is_available diarizationAvailable) = false then none
  else
    match run with
    | .error _ => none
    | .ok turns =>
      some
        { segments := List.insertionSort (fun a b => a.start ≤ b.start)
            (turns.map (fun t =>
              { start := round2 t.start, stop := round2 t.stop,
                speaker := t.speaker }))
          speakers := buildSpeakers turns
          audio_duration := audioDuration }

/-! ## The Whisper model loader (`_load_whisper_model`, tasks.py lines
87-127) -/

/-- The model tiers in ascending size order (models.py `MODEL_CHOICES`,
lines 30-36); the smallest tier is `"tiny"`. -/
def MODEL_TIERS : List String := ["tiny", "base", "small", "medium", "large"]

/-- Translation of `_load_whisper_model` (tasks.py lines 87-127).
`whisperAvailable` is the module flag `WHISPER_AVAILABLE` (an unavailable
whisper raises `ImportError`, lines 89-90); `loadOk tier` abstracts
whether `whisper.load_model(tier, ...)` succeeds.  On a load failure of
any tier other than `"base"` the code calls itself once with `"base"`
(lines 121-126); the recursive call re-raises if `"base"` fails too
(line 127).  The returned string is the tier of the model actually
returned. -/
def load_whisper_model (whisperAvailable : Bool) (loadOk : String → Bool)
    (model_name : String) : Except PyErr String :=
  if whisperAvailable = false then .error .importError
  else if loadOk model_name then .ok model_name
  else if model_name ≠ "base" then
    if loadOk "base" then .ok "base" else .error (.loadFailure "base")
  else .error (.loadFailure "base")

/-! ## The persisted transcription record (models.py `Transcription`) -/

/-- Job lifecycle status (models.py lines 10-21: exactly four values). -/
inductive Status where
  | pending
  | processing
  | completed
  | failed
  deriving DecidableEq, Repr

/-- The fields of the persisted `Transcription` row the pipeline reads or
writes.  `text` is the result payload (`None` models SQL null), `segments`
likewise; `speakers` and `speaker_segments` have Django default `list`,
`has_speaker_diarization` default `False`, `model_used` default
`"base"`, `language` default `"en"` (models.py lines 56-98). -/
structure TransRec where
  status : Status
  text : Option String
  language : String
  segments : Option (List (TransSeg String))
  speakers : List Speaker
  speaker_segments : List DiarSeg
  has_speaker_diarization : Bool
  model_used : String
  deriving DecidableEq, Repr

/-- A freshly created transcription row (all model-field defaults). -/
def initialTransRec : TransRec :=
  { status := .pending, text := none, language := "en", segments := none,
    speakers := [], speaker_segments := [], has_speaker_diarization := false,
    model_used := "base" }

/-! ## The task bodies (`tasks.py`), modelled as executable functions

The environment records abstract what the REACHABLE part of each task
body reads from the outside world: whether the database row exists and
the media-kind flags.  Both task bodies crash early on every path that
goes deeper (see the doc comments of `process_audio_task` and
`extract_audio_task`), so nothing else of the outside world is ever
consulted by the code that actually runs.  Logging is omitted. -/

/-- How each task body can leave the worker (what the caller/queue
observes). -/
inductive TaskOutcome where
  | normalReturn
  | retrySignal (countdown : ℚ)
  | raised (e : PyErr)
  deriving DecidableEq, Repr

/-- The class test written at tasks.py line 576:
`isinstance(e, (ValueError, TypeError, AttributeError, ImportError))` —
the code's (and claim C6's) classification of programming errors.  The
line itself is unreachable (see `process_audio_task`), but the
classification is what claim C6 quantifies over; note that `NameError`
is NOT one of the four classes. -/
def isProgrammingError : PyErr → Bool
  | .valueError => true
  | .typeError => true
  | .attributeError => true
  | .importError => true
  | _ => false

/-- Environment of one `process_audio_task` execution: the fields the
reachable part of the body reads.  `isVideo` models
`transcription.media_file and transcription.media_file.is_video` (the
`hasattr` guards at lines 310 and 320: a row without a media file
behaves like a non-video one). -/
structure TaskEnv where
  recordExists : Bool
  isVideo : Bool
  audioExtracted : Bool
  deriving DecidableEq, Repr

/-- Translation of the body of `process_audio_task` (tasks.py lines
295-615) along its reachable control flow:

* missing row: log and `return` (315-317);
* video with audio not yet extracted: `raise self.retry(countdown=10)`
  (309-314, propagating out of the `try` whose only handler is
  `DoesNotExist`);
* the whole remaining body sits inside `if ... is_video:` (line 320), so
  a non-video job falls through and returns `None`;
* a video job has its status set to `processing` (325-327) and then
  crashes: line 331 evaluates `transcription.audio_file`, but
  `audio.models.Transcription` has no `audio_file` field, property or
  related name (the only reverse relation is `media_file`), so an
  `AttributeError` is raised; Python then evaluates the matching clause
  `except AudioFile.DoesNotExist` (line 333) and `AudioFile` is an
  undefined name in tasks.py (never imported, no such class in
  `audio/models.py`), so a `NameError` replaces the `AttributeError` and
  escapes — lines 330-338 sit BEFORE the `try` at line 413, so nothing
  in the task catches it.

Everything from line 340 to 614 (file checks, conversion, the whisper
load, `model.transcribe`, the diarization merge, the inner retry handler
at 538-544, the outer handler writing `"Unexpected error: ..."` into
`text` at 563-568, and the completion save at 495-500) is therefore
unreachable dead code and is not part of this function. -/
def process_audio_task (env : TaskEnv) (rec : TransRec) (_retries : Nat) :
    TransRec × TaskOutcome :=
  if env.recordExists = false then (rec, .normalReturn)
  else if env.isVideo && !env.audioExtracted then (rec, .retrySignal 10)
  else if !env.isVideo then (rec, .normalReturn)
  else ({ rec with status := .processing }, .raised .nameError)

/-- Environment of one `extract_audio_task` execution; `retries` is
`self.request.retries`, read by the generic retry handler. -/
structure ExtractEnv where
  recordExists : Bool
  isVideo : Bool
  audioExtracted : Bool
  retries : Nat
  deriving DecidableEq, Repr

/-- Translation of the body of `extract_audio_task` (tasks.py lines
234-278) along its reachable control flow: a missing row logs and then
RE-RAISES `DoesNotExist` (272-274); a non-video or already-extracted
file returns (247-250); otherwise the call
`media_file.extract_audio_from_video()` at line 253 always raises —
models.py uses `NamedTemporaryFile`, `subprocess`, `ContentFile` and
`logger` without importing any of them, and the method's `finally` block
then reads the unbound `temp_path` — so a `NameError` escapes the
method; the task's generic `except Exception` (275-278) catches it and
raises `self.retry(exc=e, countdown=60 * self.request.retries)`.  The
success/failure branches at lines 255-270 (the `processing` and `failed`
saves) are unreachable dead code. -/
def extract_audio_task (env : ExtractEnv) (rec : TransRec) :
    TransRec × TaskOutcome :=
  if env.recordExists = false then (rec, .raised .doesNotExist)
  else if !env.isVideo || env.audioExtracted then (rec, .normalReturn)
  else (rec, .retrySignal (60 * (env.retries : ℚ)))

/-- Whether an execution outcome causes a retry to be scheduled: an
explicit `self.retry` always does; an exception escaping the body does
whenever attempts remain, because both tasks are declared with
`autoretry_for=(Exception,)` and `max_retries=3` (tasks.py lines 221-233
and 281-293). -/
def schedulesRetry (o : TaskOutcome) (retries maxRetries : Nat) : Bool :=
  match o with
  | .retrySignal _ => true
  | .raised _ => retries < maxRetries
  | _ => false

/-! ## Status and result updates as a step relation (claim C2)

Each constructor is one REACHABLE persisted update of a transcription
row.  Only two exist.  In `process_audio_task` the sole save that can
execute is the `processing` status update at lines 325-327 (the
line-331 crash makes every later save — the failure saves, the
`model_used` and `has_speaker_diarization` writes, the diagnostic save
at 563-568 and the completion save at 495-500 — dead code); in
`extract_audio_task` both saves (259-261, 268-270) sit after the
always-raising `extract_audio_from_video()` call and are dead; the
upload view creates the row with its model-field defaults
(`initialTransRec`); and the detail view's repair (views.py 193-196)
runs under its guard.  Claim C2's sources cite exactly these operations;
management commands are outside the pipeline per the spec's scope. -/

/-- One reachable persisted update of a transcription row. -/
inductive PipelineStep : TransRec → TransRec → Prop where
  /-- Status set to `processing` (tasks.py lines 325-327, the only save
  of `process_audio_task` that the line-331 crash does not cut off). -/
  | setProcessing (r : TransRec) :
      PipelineStep r { r with status := .processing }
  /-- The detail view's repair: a completed row without text is demoted
  to `failed` (views.py lines 193-196; Python `not audio.text` holds for
  both null and the empty string). -/
  | viewRepair (r : TransRec) (h1 : r.status = .completed)
      (h2 : r.text = none ∨ r.text = some "") :
      PipelineStep r { r with status := .failed }

/-- A row state the pipeline can produce from a fresh row. -/
def ReachableRec (r : TransRec) : Prop :=
  Relation.ReflTransGen PipelineStep initialTransRec r

/-! ## Remaining helper lemmas -/

theorem mergeOne_idem (ds : List DiarSeg) (seg : TransSeg α) :
    mergeOne ds (mergeOne ds seg) = mergeOne ds seg := by
  have hf0 := mergeOne_frame ds seg
  have hf1 := mergeOne_frame ds (mergeOne ds seg)
  apply TransSeg.ext
  · rw [hf1.1, hf0.1]
  · rw [hf1.2.1, hf0.2.1]
  · rw [mergeOne_speaker, mergeOne_speaker, hf0.1, hf0.2.1]
    cases hw : specWinner seg.start seg.stop ds with
    | none => rfl
    | some sp => by_cases hsp : sp = "" <;> simp [hsp]
  · rw [hf1.2.2, hf0.2.2]

theorem merge_get (ts : List (TransSeg α)) (ds : List DiarSeg) (i : Nat)
    (hi : i < ts.length)
    (hm : i < (merge_transcription_with_diarization ts ds).length) :
    (merge_transcription_with_diarization ts ds)[i] =
      if ds.isEmpty then ts[i] else mergeOne ds ts[i] := by
  apply Option.some.inj
  rw [← List.getElem?_eq_getElem hm]
  unfold merge_transcription_with_diarization
  by_cases h : ds.isEmpty
  · simp only [h, if_true]
    exact List.getElem?_eq_getElem hi
  · simp only [h, Bool.false_eq_true, if_false]
    rw [List.getElem?_map, List.getElem?_eq_getElem hi]
    rfl

theorem buildRoster_getElem? (ids : List String) (k i : Nat) :
    (buildRoster ids k)[i]? = (ids[i]?).map (fun sid =>
      { id := sid, name := "Speaker " ++ toString (k + i + 1),
        color := DEFAULT_SPEAKER_COLORS.getD
          ((k + i) % DEFAULT_SPEAKER_COLORS.length) "" }) := by
  induction ids generalizing k i with
  | nil => simp [buildRoster]
  | cons a rest ih =>
    cases i with
    | zero => simp [buildRoster]
    | succ n =>
      simp only [buildRoster, List.getElem?_cons_succ]
      rw [ih (k + 1) n]
      have h1 : k + 1 + n = k + (n + 1) := by omega
      rw [h1]

/-! ## Claim C1 -/

/-- Claim C1 as stated is false: it says the merge assigns the speaker id
with maximal accumulated overlap to every transcript segment that has at
least one intersecting diarization segment.  With the single diarization
segment `[0, 5)` labelled with the empty-string speaker id, the transcript
segment `[0, 5)` has one intersecting diarization segment and the maximal
accumulated-overlap speaker is `""` — but the code's Python truthiness
test `if speaker:` drops it, so the output segment carries no speaker key. -/
theorem C1_counterexample :
    specWinner 0 5 [{ start := 0, stop := 5, speaker := "" }] = some "" ∧
    ([({ start := 0, stop := 5, speaker := "" } : DiarSeg)].filter
      (intersectsB 0 5)) ≠ [] ∧
    (merge_transcription_with_diarization
        [({ start := 0, stop := 5, speaker := none,
            data := "hello" } : TransSeg String)]
        [{ start := 0, stop := 5, speaker := "" }]).map TransSeg.speaker
      = [none] := by
  refine ⟨by decide, by decide, by decide⟩

/-- Claim C1, amended: for a non-empty diarization list, the merge gives
segment `i` the speaker with maximal accumulated overlap over the
intersecting diarization segments (ties to the speaker first encountered
in diarization order) — except that a winning empty-string speaker id is
discarded and, in that case or with no intersecting diarization segment,
the segment's speaker field is left exactly as it was in the input. -/
theorem C1_merge_assigns_dominant_speaker (ts : List (TransSeg α))
    (ds : List DiarSeg) (hds : ds ≠ []) (i : Nat) (hi : i < ts.length) :
    ((merge_transcription_with_diarization ts ds)[i]?).map TransSeg.speaker =
      some (match specWinner (ts.get ⟨i, hi⟩).start (ts.get ⟨i, hi⟩).stop ds with
        | none => (ts.get ⟨i, hi⟩).speaker
        | some sp =>
          if sp = "" then (ts.get ⟨i, hi⟩).speaker else some sp) := by
  rw [merge_getElem? ts ds i hds, List.getElem?_eq_getElem hi]
  rw [show Option.map (mergeOne ds) (some ts[i]) = some (mergeOne ds ts[i])
    from rfl]
  rw [show (ts[i] : TransSeg α) = ts.get ⟨i, hi⟩ from rfl]
  rw [show Option.map TransSeg.speaker (some (mergeOne ds (ts.get ⟨i, hi⟩))) =
    some (mergeOne ds (ts.get ⟨i, hi⟩)).speaker from rfl]
  rw [mergeOne_speaker]

/-- Witness for C1 at the spec's own overlap example: transcript segment
`[2, 8)` against diarization `[(0, 4, A), (4, 10, B)]` — speaker `B` wins
with 4 seconds of overlap against 2. -/
theorem C1_witness :
    ((merge_transcription_with_diarization
        [({ start := 2, stop := 8, speaker := none,
            data := "hello" } : TransSeg String)]
        [{ start := 0, stop := 4, speaker := "A" },
         { start := 4, stop := 10, speaker := "B" }])[0]?).map TransSeg.speaker
      = some (some "B") := by
  have h := C1_merge_assigns_dominant_speaker
    [({ start := 2, stop := 8, speaker := none,
        data := "hello" } : TransSeg String)]
    [{ start := 0, stop := 4, speaker := "A" },
     { start := 4, stop := 10, speaker := "B" }]
    (by decide) 0 (by decide)
  rw [h]
  norm_num [List.get, specWinner, speakersInOrder, accOverlap, argmaxFirst,
    dedupFirst, intersectsB, overlapDur, List.filter, List.foldl,
    show decide (("A" : String) = "B") = false from rfl,
    show decide (("B" : String) = "A") = false from rfl,
    show decide (("A" : String) = "A") = true from rfl,
    show decide (("B" : String) = "B") = true from rfl,
    show (("B" : String) = "") = False from by simp]

/-! ## Claim C2 -/

/-- Claim C2: for every job row the pipeline can produce, the result
payload (text, segments) is non-null iff the status is `completed`.
This holds — vacuously on both sides: the only writes of `text`,
`segments` or status `completed` in the code (the completion save at
tasks.py 495-500 and the diagnostic save at 563-568) are unreachable
dead code behind the line-331 crash, so every reachable row has null
text, null segments and a status other than `completed`, and both sides
of each equivalence are false. -/
theorem C2_result_iff_completed (r : TransRec) (h : ReachableRec r) :
    (r.text ≠ none ↔ r.status = .completed) ∧
    (r.segments ≠ none ↔ r.status = .completed) := by
  have key : r.text = none ∧ r.segments = none ∧ r.status ≠ .completed := by
    induction h with
    | refl => exact ⟨rfl, rfl, by decide⟩
    | tail hsteps hstep ih =>
      cases hstep with
      | setProcessing => exact ⟨ih.1, ih.2.1, by simp⟩
      | viewRepair h1 h2 => exact absurd h1 ih.2.2
  exact ⟨⟨fun ht => absurd key.1 ht, fun hc => absurd hc key.2.2⟩,
    ⟨fun hs => absurd key.2.1 hs, fun hc => absurd hc key.2.2⟩⟩

/-- Witness for C2 at the reachable `processing` row. -/
theorem C2_witness :
    ((({ initialTransRec with status := .processing } : TransRec).text ≠
        none ↔
      ({ initialTransRec with status := .processing } : TransRec).status =
        .completed) ∧
     (({ initialTransRec with status := .processing } : TransRec).segments ≠
        none ↔
      ({ initialTransRec with status := .processing } : TransRec).status =
        .completed)) :=
  C2_result_iff_completed _
    (Relation.ReflTransGen.single (PipelineStep.setProcessing initialTransRec))

/-! ## Claim C3 -/

/-- An audio-kind job environment: the row exists and its media file is
not a video (these are the only facts the reachable part of the task
body ever consults). -/
def audioJobEnv : TaskEnv :=
  { recordExists := true, isVideo := false, audioExtracted := false }

/-- Claim C3 states that for an audio-kind job the processing task runs
the full transcription stage (`pending → processing → completed`, result
attached).  The code does not: the entire processing body of
`process_audio_task` is nested under `if ... is_video:` (tasks.py line
320), so an audio-kind job falls straight through — the task returns
`None`, the row stays `pending`, and no text or segments are ever
attached.  Evaluating the task body on a fully healthy audio-kind job
shows the no-op. -/
theorem C3_audio_job_is_skipped :
    process_audio_task audioJobEnv initialTransRec 0 =
      (initialTransRec, .normalReturn) ∧
    (process_audio_task audioJobEnv initialTransRec 0).1.status = .pending ∧
    (process_audio_task audioJobEnv initialTransRec 0).1.text = none ∧
    (process_audio_task audioJobEnv initialTransRec 0).1.segments = none := by
  refine ⟨rfl, rfl, rfl, rfl⟩

/-! ## Claim C4 -/

/-- Claim C4 as stated is false: it says a failing load of the smallest
tier propagates the error with no fallback.  The smallest tier is
`"tiny"` (head of the ordered tier list), but `_load_whisper_model` falls
back to `"base"` — not to the smallest tier — for every requested tier
other than `"base"`; in particular a failing `"tiny"` request falls back
UP to `"base"` and returns a model instead of raising. -/
theorem C4_counterexample :
    MODEL_TIERS.head? = some "tiny" ∧
    load_whisper_model true (fun s => s == "base") "tiny" = .ok "base" := by
  refine ⟨rfl, rfl⟩

/-- Claim C4, amended: the fallback tier is `"base"`, not the smallest
tier.  For every requested tier whose load fails: with whisper missing,
an ImportError propagates immediately; a tier other than `"base"` falls
back exactly once to `"base"` and returns the model tagged `"base"` when
that load succeeds; and when `"base"` itself fails to load (whether
requested directly or reached by fallback) the load error propagates with
no further fallback. -/
theorem C4_falls_back_to_base (f : String → Bool) (tier : String)
    (hfail : f tier = false) :
    load_whisper_model false f tier = .error .importError ∧
    (tier ≠ "base" → f "base" = true →
      load_whisper_model true f tier = .ok "base") ∧
    (f "base" = false →
      load_whisper_model true f tier = .error (.loadFailure "base")) := by
  refine ⟨by simp [load_whisper_model], ?_, ?_⟩
  · intro h1 h2
    simp [load_whisper_model, hfail, h1, h2]
  · intro h1
    by_cases h2 : tier = "base"
    · subst h2
      simp [load_whisper_model, hfail]
    · simp [load_whisper_model, hfail, h1, h2]

/-- Witness for C4 with tier `"large"` failing and `"base"` loading. -/
theorem C4_witness :
    load_whisper_model false (fun s => s == "base") "large" =
      .error .importError ∧
    ("large" ≠ "base" → (fun s : String => s == "base") "base" = true →
      load_whisper_model true (fun s => s == "base") "large" = .ok "base") ∧
    ((fun s : String => s == "base") "base" = false →
      load_whisper_model true (fun s => s == "base") "large" =
        .error (.loadFailure "base")) :=
  C4_falls_back_to_base (fun s => s == "base") "large" (by decide)

/-! ## Claim C5 -/

/-- Claim C5: the diarization engine never raises out of a processing
call.  When the pyannote import failed, or the model load failed, the
pipeline handle is unset and `is_available` reports false; every
processing call with an unavailable engine returns `None`; and a
processing run that raises internally is caught and returns `None`. -/
theorem C5_diarizer_never_raises (d : SpeakerDiarizer) (avail : Bool)
    (run : Except PyErr (List Turn)) (dur : ℚ) (round2 : ℚ → ℚ) :
    (∀ load : Except PyErr Unit,
      (load_model false load).is_available false = false) ∧
    (∀ (e : PyErr) (b : Bool),
      (load_model b (.error e)).is_available b = false) ∧
    (d.is_available avail = false →
      d.process_audio_file avail run dur round2 = none) ∧
    (∀ e : PyErr, d.process_audio_file avail (.error e) dur round2 = none) := by
  refine ⟨?_, ?_, ?_, ?_⟩
  · intro load
    simp [load_model, SpeakerDiarizer.is_available]
  · intro e b
    cases b <;> simp [load_model, SpeakerDiarizer.is_available]
  · intro h
    unfold SpeakerDiarizer.process_audio_file
    rw [h]
    rfl
  · intro e
    unfold SpeakerDiarizer.process_audio_file
    by_cases h : d.is_available avail = false
    · rw [h]
      rfl
    · simp only [h, if_false]
      rfl

/-- Witness for C5: the diarizer whose model failed to load reports
unavailable and returns `None` from a processing call. -/
theorem C5_witness :
    (load_model true (.error .otherError)).process_audio_file true
      (.ok []) 0 id = none := by
  have h := C5_diarizer_never_raises (load_model true (.error .otherError))
    true (.ok []) 0 id
  exact h.2.2.1 (h.2.1 .otherError true)

/-! ## Claim C6 -/

/-- A video-kind job environment whose row exists and whose audio has
been extracted — the only kind of job that enters the deeper part of the
processing body. -/
def videoJobEnv : TaskEnv :=
  { audioJobEnv with isVideo := true, audioExtracted := true }

/-- Claim C6 says a failure of a programming-error class (`ValueError`,
`TypeError`, `AttributeError`, `ImportError`) during the processing
stage is never retried and the job surfaces as failed with diagnostic
text.  The code does neither.  The one failure the processing stage
actually produces originates as a programming-error class: line 331
evaluates `transcription.audio_file`, raising `AttributeError` (no such
field), which the broken clause `except AudioFile.DoesNotExist`
(undefined name `AudioFile`) turns into an escaping `NameError` before
any handler runs.  The task's declaration `autoretry_for=(Exception,)`
with `max_retries=3` (tasks.py lines 281-293) then SCHEDULES A RETRY for
the escaping exception, and the row is left in status `processing` with
no diagnostic text: the job never surfaces as failed.  The explicit
no-retry check at lines 576-579 — whose class list `isProgrammingError`
transcribes — is unreachable dead code.  The theorem evaluates the task
body at that failing input. -/
theorem C6_programming_error_is_retried :
    process_audio_task videoJobEnv initialTransRec 0 =
      ({ initialTransRec with status := .processing }, .raised .nameError) ∧
    schedulesRetry (.raised .nameError) 0 3 = true ∧
    isProgrammingError .attributeError = true ∧
    (process_audio_task videoJobEnv initialTransRec 0).1.status =
      .processing ∧
    (process_audio_task videoJobEnv initialTransRec 0).1.text = none := by
  refine ⟨rfl, rfl, rfl, rfl, rfl⟩

/-! ## Claim C7 -/

/-- Claim C7: the merge is pure — with an empty diarization list the
transcript list is returned unchanged, and calling the merge twice with
the same inputs yields identical output (in this embedding the merge is a
function, so the repeated call is literally the same value; additionally,
re-merging the merge's own output against the same diarization list is a
fixed point). -/
theorem C7_merge_pure_and_empty_identity (ts : List (TransSeg α))
    (ds : List DiarSeg) :
    merge_transcription_with_diarization ts [] = ts ∧
    merge_transcription_with_diarization ts ds =
      merge_transcription_with_diarization ts ds ∧
    merge_transcription_with_diarization
        (merge_transcription_with_diarization ts ds) ds =
      merge_transcription_with_diarization ts ds := by
  refine ⟨rfl, rfl, ?_⟩
  unfold merge_transcription_with_diarization
  by_cases h : ds.isEmpty
  · simp [h]
  · simp only [h, Bool.false_eq_true, if_false, List.map_map]
    refine List.map_congr_left ?_
    intro seg _
    simp only [Function.comp_apply]
    exact mergeOne_idem ds seg

/-! ## Claim C8 -/

/-- Claim C8 as stated is false: it says roster entries are assigned in
order of each speaker's first appearance in the diarization output.  The
code builds the roster from `sorted(list(speaker_ids))` (diarization.py
line 140) — ascending lexicographic order of the id strings.  With turns
whose speakers first appear in the order `B`, `A`, the code gives
`Speaker 1` and the first palette color to `A`, while the claim demands
they go to `B`. -/
theorem C8_counterexample :
    buildSpeakers [{ start := 0, stop := 1, speaker := "B" },
                   { start := 1, stop := 2, speaker := "A" }] =
      [{ id := "A", name := "Speaker " ++ toString 1, color := "#1f77b4" },
       { id := "B", name := "Speaker " ++ toString 2, color := "#ff7f0e" }] ∧
    rosterFirstAppearance [{ start := 0, stop := 1, speaker := "B" },
                           { start := 1, stop := 2, speaker := "A" }] =
      [{ id := "B", name := "Speaker " ++ toString 1, color := "#1f77b4" },
       { id := "A", name := "Speaker " ++ toString 2, color := "#ff7f0e" }] ∧
    buildSpeakers [{ start := 0, stop := 1, speaker := "B" },
                   { start := 1, stop := 2, speaker := "A" }] ≠
      rosterFirstAppearance [{ start := 0, stop := 1, speaker := "B" },
                             { start := 1, stop := 2, speaker := "A" }] := by
  have hBA : ¬ (("B" : String) ≤ "A") := by
    rw [String.le_iff_toList_le]
    decide
  have hAB : (("A" : String) = "B") = False := by simp
  have hBA2 : (("B" : String) = "A") = False := by simp
  refine ⟨?_, ?_, ?_⟩
  · simp [buildSpeakers, rosterIds, dedupFirst, List.insertionSort,
      List.orderedInsert, hBA, hAB, hBA2, buildRoster, DEFAULT_SPEAKER_COLORS]
  · simp [rosterFirstAppearance, dedupFirst, hAB, hBA2, buildRoster,
      DEFAULT_SPEAKER_COLORS]
  · have h1 : ¬ (("A" : String) = "B") := by simp
    intro heq
    have := congrArg (fun l => (List.map Speaker.id l)[0]?) heq
    simp [buildSpeakers, rosterIds, dedupFirst, List.insertionSort,
      List.orderedInsert, hBA, hAB, hBA2, buildRoster,
      rosterFirstAppearance] at this

/-- Claim C8, amended: the roster maps each distinct speaker id of the
diarization output to the display label `Speaker i+1` and the palette
color `i % len(palette)` — but the entries are assigned in ascending
lexicographic order of the speaker ids, not in first-appearance order. -/
theorem C8_roster_assigned_in_sorted_order (turns : List Turn) :
    List.Sorted (fun a b : String => a ≤ b) (rosterIds turns) ∧
    (rosterIds turns).Nodup ∧
    (∀ sp, sp ∈ rosterIds turns ↔ sp ∈ turns.map Turn.speaker) ∧
    ∀ i : Nat, (buildSpeakers turns)[i]? = ((rosterIds turns)[i]?).map
      (fun sid =>
        { id := sid, name := "Speaker " ++ toString (i + 1),
          color := DEFAULT_SPEAKER_COLORS.getD
            (i % DEFAULT_SPEAKER_COLORS.length) "" }) := by
  refine ⟨?_, ?_, ?_, ?_⟩
  · exact List.sorted_insertionSort _ _
  · unfold rosterIds
    rw [List.Perm.nodup_iff (List.perm_insertionSort _ _)]
    exact dedupFirst_nodup _
  · intro sp
    unfold rosterIds
    rw [List.Perm.mem_iff (List.perm_insertionSort _ _)]
    exact mem_dedupFirst
  · intro i
    unfold buildSpeakers
    rw [buildRoster_getElem? (rosterIds turns) 0 i]
    simp

/-! ## Claim C9 -/

/-- The processing-task environment whose backing row is gone. -/
def missingRecordEnv : TaskEnv :=
  { audioJobEnv with recordExists := false }

/-- The extraction-task environment whose backing row is gone. -/
def missingRecordExtractEnv : ExtractEnv :=
  { recordExists := false, isVideo := true, audioExtracted := false,
    retries := 0 }

/-- Claim C9 as stated is false for the extraction task: it says a task
whose backing record no longer exists is a no-op that raises no error and
schedules no retry.  `extract_audio_task` logs and then RE-RAISES the
not-found error (tasks.py lines 272-274), and the decorator
`autoretry_for=(Exception,)` with `max_retries=3` then schedules a
retry for the escaping exception. -/
theorem C9_counterexample :
    extract_audio_task missingRecordExtractEnv initialTransRec =
      (initialTransRec, .raised .doesNotExist) ∧
    TaskOutcome.raised .doesNotExist ≠ .normalReturn ∧
    schedulesRetry (.raised .doesNotExist) 0 3 = true := by
  refine ⟨rfl, by decide, rfl⟩

/-- Claim C9, amended: only the processing task treats a missing backing
record as a no-op (log and return, tasks.py lines 315-317); the
extraction task instead re-raises `DoesNotExist`, which its autoretry
declaration turns into scheduled retries. -/
theorem C9_missing_record_behavior (env : TaskEnv) (eenv : ExtractEnv)
    (r : TransRec) (retries : Nat) (h1 : env.recordExists = false)
    (h2 : eenv.recordExists = false) :
    process_audio_task env r retries = (r, .normalReturn) ∧
    extract_audio_task eenv r = (r, .raised .doesNotExist) := by
  constructor
  · unfold process_audio_task
    rw [h1]
    simp
  · unfold extract_audio_task
    rw [h2]
    simp

/-- Witness for C9 at concrete missing-record environments. -/
theorem C9_witness :
    process_audio_task missingRecordEnv initialTransRec 0 =
      (initialTransRec, .normalReturn) ∧
    extract_audio_task missingRecordExtractEnv initialTransRec =
      (initialTransRec, .raised .doesNotExist) :=
  C9_missing_record_behavior missingRecordEnv missingRecordExtractEnv
    initialTransRec 0 rfl rfl

/-! ## Claim C10 -/

theorem mergeOne_speaker_cases (ds : List DiarSeg) (seg : TransSeg α) :
    (mergeOne ds seg).speaker = seg.speaker ∨
      ∃ sp, (mergeOne ds seg).speaker = some sp := by
  unfold mergeOne
  cases maxBySnd (overlappingSpeakers seg.start seg.stop ds) with
  | none => exact Or.inl rfl
  | some p =>
    obtain ⟨sp, v⟩ := p
    by_cases hsp : sp = ""
    · left
      simp [hsp]
    · right
      exact ⟨sp, by simp [hsp]⟩

/-- Claim C10: the merge returns a list of the same length and order as
the transcript input; output segment `i` agrees with input segment `i` on
every field except possibly the `speaker` key (which is either left
exactly as in the input or set to some speaker id).  The code builds a
fresh result list of `seg.copy()` dictionaries (diarization.py lines
177-216), so the inputs are not mutated — in this value-level embedding
that is reflected by the merge being a pure function of its inputs. -/
theorem C10_merge_frame (ts : List (TransSeg α)) (ds : List DiarSeg)
    (i : Nat) (hi : i < ts.length) :
    (merge_transcription_with_diarization ts ds).length = ts.length ∧
    ∃ hm : i < (merge_transcription_with_diarization ts ds).length,
      ((merge_transcription_with_diarization ts ds).get ⟨i, hm⟩).start =
        (ts.get ⟨i, hi⟩).start ∧
      ((merge_transcription_with_diarization ts ds).get ⟨i, hm⟩).stop =
        (ts.get ⟨i, hi⟩).stop ∧
      ((merge_transcription_with_diarization ts ds).get ⟨i, hm⟩).data =
        (ts.get ⟨i, hi⟩).data ∧
      (((merge_transcription_with_diarization ts ds).get ⟨i, hm⟩).speaker =
          (ts.get ⟨i, hi⟩).speaker ∨
        ∃ sp, ((merge_transcription_with_diarization ts ds).get
          ⟨i, hm⟩).speaker = some sp) := by
  have hlen := merge_length ts ds
  refine ⟨hlen, ?_⟩
  have hm : i < (merge_transcription_with_diarization ts ds).length := by
    rw [hlen]
    exact hi
  refine ⟨hm, ?_⟩
  have hget := merge_get ts ds i hi hm
  rw [List.get_eq_getElem, List.get_eq_getElem, hget]
  by_cases h : ds.isEmpty
  · simp [h]
  · simp only [h, Bool.false_eq_true, if_false]
    have hf := mergeOne_frame ds (ts.get ⟨i, hi⟩)
    have hs := mergeOne_speaker_cases ds (ts.get ⟨i, hi⟩)
    rw [show (ts[i] : TransSeg α) = ts.get ⟨i, hi⟩ from rfl]
    exact ⟨hf.1, hf.2.1, hf.2.2, hs⟩

/-- Concrete transcript input for the C10 witness. -/
def c10ts : List (TransSeg String) :=
  [{ start := 0, stop := 5, speaker := none, data := "t" }]

/-- Concrete diarization input for the C10 witness. -/
def c10ds : List DiarSeg := [{ start := 0, stop := 5, speaker := "S" }]

/-- Witness for C10 at a concrete input. -/
theorem C10_witness :
    (merge_transcription_with_diarization c10ts c10ds).length =
      c10ts.length ∧
    ∃ hm : 0 < (merge_transcription_with_diarization c10ts c10ds).length,
      ((merge_transcription_with_diarization c10ts c10ds).get
        ⟨0, hm⟩).start = (c10ts.get ⟨0, by decide⟩).start ∧
      ((merge_transcription_with_diarization c10ts c10ds).get
        ⟨0, hm⟩).stop = (c10ts.get ⟨0, by decide⟩).stop ∧
      ((merge_transcription_with_diarization c10ts c10ds).get
        ⟨0, hm⟩).data = (c10ts.get ⟨0, by decide⟩).data ∧
      (((merge_transcription_with_diarization c10ts c10ds).get
          ⟨0, hm⟩).speaker = (c10ts.get ⟨0, by decide⟩).speaker ∨
        ∃ sp, ((merge_transcription_with_diarization c10ts c10ds).get
          ⟨0, hm⟩).speaker = some sp) :=
  C10_merge_frame c10ts c10ds 0 (by decide)

end SpeechToText
